import Mathlib

/-
Verification of the kitties pallet (src/pallets/kitties/src/lib.rs).

Shallow embedding conventions:
  * Account ids, kitty indices and balances are modelled as Nat. The balance
    type is instantiated at u128, so balance arithmetic wraps modulo 2^128
    (the unchecked `-` and `+` of the source in release mode). The kitty
    index type is kept abstract through a parameter `kmax`, the value of
    `Bounded::max_value()` for the index type: `checked_add(1)` fails exactly
    on `kmax`.
  * The four storage tables of `decl_storage` become fields of `KState`;
    maps are total functions into Option.
  * Each dispatchable becomes a function on `KState`. Failure via `?`,
    `ensure!` or `fail!` becomes `Except.error`; since `try_mutate` and
    `try_mutate_exists` revert their own write on error and every other
    error path of the non-exchange dispatchables happens before any write,
    an `Except.error` result means the storage is unchanged. `exchange`
    mutates storage before it can fail, so it returns `ExchangeOut`, whose
    error constructor carries the post-state; its `.unwrap()` on the result
    of `Kitties::take` becomes the `panicked` outcome.
  * The 16-byte dna arrays and the injected randomness are values of
    `Dna := Fin 16 -> Nat` passed as explicit arguments (the RandomnessPort
    output is an input of `create` and `breed`).
  * Event emission is a fire-and-forget side channel and is not modelled.
-/

namespace Kitties

abbrev AccountId := Nat
abbrev KittyIndex := Nat
abbrev Balance := Nat

/-- A 16-byte genome, one Nat (a byte value) per index. -/
abbrev Dna := Fin 16 → Nat

/-- `pub struct Kitty(pub [u8; 16])`. -/
structure Kitty where
  dna : Dna

/-- The source enum KittyGender with variants Male and Female. -/
inductive KittyGender
  | Male
  | Female
deriving DecidableEq

/-- `Kitty::gender`: parity of genome byte 0, even is Male. -/
def Kitty.gender (k : Kitty) : KittyGender :=
  if k.dna 0 % 2 = 0 then KittyGender.Male else KittyGender.Female

/-- `fn combine_dna(dna1: u8, dna2: u8, selector: u8) -> u8`:
`(!selector & dna1) | (selector & dna2)`, with `!` the u8 bitwise not,
modelled as xor with 255. -/
def combine_dna (dna1 dna2 selector : Nat) : Nat :=
  ((selector ^^^ 255) &&& dna1) ||| (selector &&& dna2)

/-- `decl_error!` enum `Error`. -/
inductive KError
  | KittiesIdOverflow
  | InvalidKittyId
  | SameGender
  | NotForSale
  | CannotExchangeWithYourself
  | NotEnoughBalance
deriving DecidableEq

/-- The four storage tables of `decl_storage!`:
`Kitties` (double map owner, id to Option Kitty), `NextKittyId`,
`KittyPrice` (map id to Option Balance), `Balance` (map account to
Option Balance). -/
structure KState where
  kitties : AccountId → KittyIndex → Option Kitty
  nextKittyId : KittyIndex
  kittyPrice : KittyIndex → Option Balance
  balance : AccountId → Option Balance

/-- Balance arithmetic modulus: the balance type is u128. -/
def BMOD : Nat := 2 ^ 128

/-- Wrapping u128 addition, the unchecked `*my_bal + price`. -/
def wadd (a b : Nat) : Nat := (a + b) % BMOD

/-- Wrapping u128 subtraction, the unchecked `*my_bal - price`. -/
def wsub (a b : Nat) : Nat := (a + (BMOD - b % BMOD)) % BMOD

/-- `Kitties::<T>::insert(owner, id, kitty)`. -/
def KState.insertKitty (s : KState) (owner : AccountId) (id : KittyIndex) (k : Kitty) : KState :=
  { s with kitties := fun a i => if a = owner ∧ i = id then some k else s.kitties a i }

/-- `Kitties::<T>::take(owner, id)` viewed on the state: the entry removed. -/
def KState.removeKitty (s : KState) (owner : AccountId) (id : KittyIndex) : KState :=
  { s with kitties := fun a i => if a = owner ∧ i = id then none else s.kitties a i }

/-- `KittyPrice::<T>::take(id)` viewed on the state: the listing removed. -/
def KState.removeListing (s : KState) (id : KittyIndex) : KState :=
  { s with kittyPrice := fun i => if i = id then none else s.kittyPrice i }

/-- `KittyPrice::<T>::mutate_exists(id, |price| *price = Some(p))`. -/
def KState.writeListing (s : KState) (id : KittyIndex) (p : Balance) : KState :=
  { s with kittyPrice := fun i => if i = id then some p else s.kittyPrice i }

/-- `Balance::<T>::mutate_exists(a, |bal| if let Some(b) = bal ...)`:
the entry of `a`, when present, replaced by `f` of it; an absent entry
stays absent. -/
def KState.mapBalance (s : KState) (a : AccountId) (f : Nat → Nat) : KState :=
  { s with balance := fun x => if x = a then Option.map f (s.balance x) else s.balance x }

/-- `get_next_kitty_id`: `try_mutate` on `NextKittyId`; returns the current
value and bumps the counter by one, or fails with `KittiesIdOverflow` when
the counter sits at `kmax` (the max value of the index type, where
`checked_add(1)` returns None) and then leaves the counter unchanged
(the `try_mutate` write is reverted on error). The returned state is the
post-state in both cases. -/
def get_next_kitty_id (kmax : Nat) (s : KState) : Except KError KittyIndex × KState :=
  if s.nextKittyId < kmax then
    (Except.ok s.nextKittyId, { s with nextKittyId := s.nextKittyId + 1 })
  else
    (Except.error KError.KittiesIdOverflow, s)

/-- Dispatchable `create`: allocates an id, stores `Kitty(dna)` under
(sender, id). The random dna is the RandomnessPort input `dna`. -/
def create (kmax : Nat) (sender : AccountId) (dna : Dna) (s : KState) : Except KError KState :=
  match get_next_kitty_id kmax s with
  | (Except.error e, _) => Except.error e
  | (Except.ok kid, s1) => Except.ok (s1.insertKitty sender kid ⟨dna⟩)

/-- Dispatchable `breed`: both parents must exist under the sender, their
genders must differ, then a fresh id is allocated and the child dna is the
bytewise `combine_dna` of the parents under the random `selector`. -/
def breed (kmax : Nat) (sender : AccountId) (id1 id2 : KittyIndex) (selector : Dna)
    (s : KState) : Except KError KState :=
  match s.kitties sender id1 with
  | none => Except.error KError.InvalidKittyId
  | some kitty1 =>
    match s.kitties sender id2 with
    | none => Except.error KError.InvalidKittyId
    | some kitty2 =>
      if kitty1.gender = kitty2.gender then Except.error KError.SameGender
      else
        match get_next_kitty_id kmax s with
        | (Except.error e, _) => Except.error e
        | (Except.ok kid, s1) =>
          Except.ok (s1.insertKitty sender kid
            ⟨fun i => combine_dna (kitty1.dna i) (kitty2.dna i) (selector i)⟩)

/-- Dispatchable `transfer`: inside `try_mutate_exists(sender, kitty_id)`,
a self-transfer only checks existence and writes nothing; otherwise the
entry is taken from the sender and inserted under `to`. On error the
`try_mutate_exists` write is reverted, so the state is unchanged. -/
def transfer (sender dest : AccountId) (kid : KittyIndex) (s : KState) : Except KError KState :=
  if sender = dest then
    if (s.kitties sender kid).isSome then Except.ok s
    else Except.error KError.InvalidKittyId
  else
    match s.kitties sender kid with
    | none => Except.error KError.InvalidKittyId
    | some k => Except.ok ((s.removeKitty sender kid).insertKitty dest kid k)

/-- Dispatchable `set_price`: the setter must own the kitty (else
`InvalidKittyId`), a price must already be stored (else `NotForSale`);
then the stored price is overwritten and the previous price is reported
(the `KittyPriceSet` event carries the old value, returned here). -/
def set_price (setter : AccountId) (kid : KittyIndex) (new_price : Balance)
    (s : KState) : Except KError (Balance × KState) :=
  if (s.kitties setter kid).isSome then
    match s.kittyPrice kid with
    | none => Except.error KError.NotForSale
    | some price => Except.ok (price, s.writeListing kid new_price)
  else
    Except.error KError.InvalidKittyId

/-- Outcome of `exchange`: unlike the other dispatchables it mutates
storage before its failure points, so errors carry the post-state; the
`.unwrap()` on `Kitties::take` gives the `panicked` outcome. -/
inductive ExchangeOut
  | ok (s : KState)
  | err (e : KError) (s : KState)
  | panicked

/-- The error of an outcome, when it is an error. -/
def ExchangeOut.errOf : ExchangeOut → Option KError
  | ExchangeOut.ok _ => none
  | ExchangeOut.err e _ => some e
  | ExchangeOut.panicked => none

/-- The post-state of an outcome, absent on panic. -/
def ExchangeOut.stateOf : ExchangeOut → Option KState
  | ExchangeOut.ok s => some s
  | ExchangeOut.err _ s => some s
  | ExchangeOut.panicked => none

/-- Whether the outcome is success. -/
def ExchangeOut.isOk : ExchangeOut → Bool
  | ExchangeOut.ok _ => true
  | _ => false

/-- Dispatchable `exchange(origin, receiver, kitty_id)`: rejects
self-exchange; reads the balance of the RECEIVER into `my_balance`;
destructively takes the listing (else `NotForSale`); if the receiver has
no balance record fails `NotForSale`, the listing staying consumed; if
`price < money` subtracts the price from the existing sender balance entry,
adds it to the existing receiver balance entry, and takes-and-unwraps the
kitty from (sender, kitty_id) without inserting it anywhere; otherwise
fails `NotEnoughBalance`, the listing staying consumed. -/
def exchange (sender receiver : AccountId) (kid : KittyIndex) (s : KState) : ExchangeOut :=
  if sender = receiver then ExchangeOut.err KError.CannotExchangeWithYourself s
  else
    let my_balance := s.balance receiver
    match s.kittyPrice kid with
    | none => ExchangeOut.err KError.NotForSale s
    | some price =>
      let s1 := s.removeListing kid
      match my_balance with
      | none => ExchangeOut.err KError.NotForSale s1
      | some money =>
        if price < money then
          let s2 := s1.mapBalance sender (fun b => wsub b price)
          let s3 := s2.mapBalance receiver (fun b => wadd b price)
          match s3.kitties sender kid with
          | some _ => ExchangeOut.ok (s3.removeKitty sender kid)
          | none => ExchangeOut.panicked
        else ExchangeOut.err KError.NotEnoughBalance s1

/-- Genesis: all four tables empty, the counter at zero. -/
def initState : KState :=
  { kitties := fun _ _ => none
    nextKittyId := 0
    kittyPrice := fun _ => none
    balance := fun _ => none }

/-- One dispatch that changed (or may have changed) storage: success of any
of the five dispatchables, or an error outcome of `exchange`, which is the
one error path that leaves a mutation behind. -/
inductive Step (kmax : Nat) : KState → KState → Prop
  | create (a : AccountId) (dna : Dna) (s s' : KState) :
      Kitties.create kmax a dna s = Except.ok s' → Step kmax s s'
  | breed (a : AccountId) (i j : KittyIndex) (sel : Dna) (s s' : KState) :
      Kitties.breed kmax a i j sel s = Except.ok s' → Step kmax s s'
  | transfer (a b : AccountId) (i : KittyIndex) (s s' : KState) :
      Kitties.transfer a b i s = Except.ok s' → Step kmax s s'
  | setPrice (a : AccountId) (i : KittyIndex) (p old : Balance) (s s' : KState) :
      set_price a i p s = Except.ok (old, s') → Step kmax s s'
  | exchangeOk (a b : AccountId) (i : KittyIndex) (s s' : KState) :
      exchange a b i s = ExchangeOut.ok s' → Step kmax s s'
  | exchangeErr (a b : AccountId) (i : KittyIndex) (e : KError) (s s' : KState) :
      exchange a b i s = ExchangeOut.err e s' → Step kmax s s'

/-- States the module can reach from genesis. -/
inductive Reachable (kmax : Nat) : KState → Prop
  | init : Reachable kmax initState
  | step {s s' : KState} : Reachable kmax s → Step kmax s s' → Reachable kmax s'

/-- At most one owner per kitty id. -/
def Inv (s : KState) : Prop :=
  ∀ (i a b : Nat), (s.kitties a i).isSome = true → (s.kitties b i).isSome = true → a = b

/-- Every stored kitty id is below the counter (freshness of `NextKittyId`). -/
def IdsBelow (s : KState) : Prop :=
  ∀ (a i : Nat), (s.kitties a i).isSome = true → i < s.nextKittyId

/-- The inductive invariant: uniqueness together with id freshness. -/
def GoodState (s : KState) : Prop := Inv s ∧ IdsBelow s

/-- Example dna, every byte 2. -/
def exDna : Dna := fun _ => 2

/-- Example selector, every byte 0. -/
def exSel : Dna := fun _ => 0

/-- Example state: kitty 0 listed at price 5, nothing else populated. -/
def exListedNoBalance : KState :=
  { kitties := fun _ _ => none
    nextKittyId := 1
    kittyPrice := fun i => if i = 0 then some 5 else none
    balance := fun _ => none }

/-- Example state: kitty 0 listed at price 5, account 1 has balance 10,
and the ownership table is empty. -/
def exListedRichNoOwner : KState :=
  { kitties := fun _ _ => none
    nextKittyId := 1
    kittyPrice := fun i => if i = 0 then some 5 else none
    balance := fun a => if a = 1 then some 10 else none }

/-- Example state: account 1 has balance exactly 5, kitty 0 listed at 5. -/
def exEqualBalance : KState :=
  { kitties := fun _ _ => none
    nextKittyId := 1
    kittyPrice := fun i => if i = 0 then some 5 else none
    balance := fun a => if a = 1 then some 5 else none }

/-- Example state: account 0 owns kitty 0 (dna all 2), listed at price 5;
account 0 holds balance 7 and account 1 holds balance 10. -/
def exFull : KState :=
  { kitties := fun a i => if a = 0 ∧ i = 0 then some ⟨exDna⟩ else none
    nextKittyId := 1
    kittyPrice := fun i => if i = 0 then some 5 else none
    balance := fun a => if a = 0 then some 7 else if a = 1 then some 10 else none }

/-- Example state: account 0 owns kitty 0 (even byte 0) and no listing exists. -/
def exOwnedUnlisted : KState :=
  { kitties := fun a i => if a = 0 ∧ i = 0 then some ⟨exDna⟩ else none
    nextKittyId := 1
    kittyPrice := fun _ => none
    balance := fun _ => none }

/-- Example state: account 0 owns kitty 0 (dna all 2, Male) and kitty 1
(dna all 3, Female), counter at 2. -/
def exParents : KState :=
  { kitties := fun a i =>
      if a = 0 ∧ i = 0 then some ⟨fun _ => 2⟩
      else if a = 0 ∧ i = 1 then some ⟨fun _ => 3⟩ else none
    nextKittyId := 2
    kittyPrice := fun _ => none
    balance := fun _ => none }

/-- The state `create 1 0 exDna initState` produces. -/
def exCreated : KState :=
  ({ initState with nextKittyId := initState.nextKittyId + 1 }).insertKitty 0
    initState.nextKittyId ⟨exDna⟩

/-- The state `breed 3 0 0 1 exSel exParents` produces. -/
def exBred : KState :=
  ({ exParents with nextKittyId := exParents.nextKittyId + 1 }).insertKitty 0
    exParents.nextKittyId ⟨fun idx => combine_dna 2 3 (exSel idx)⟩

@[simp] lemma insertKitty_nextKittyId (s : KState) (a : AccountId) (i : KittyIndex) (k : Kitty) :
    (s.insertKitty a i k).nextKittyId = s.nextKittyId := rfl

@[simp] lemma insertKitty_kittyPrice (s : KState) (a : AccountId) (i : KittyIndex) (k : Kitty) :
    (s.insertKitty a i k).kittyPrice = s.kittyPrice := rfl

@[simp] lemma insertKitty_balance (s : KState) (a : AccountId) (i : KittyIndex) (k : Kitty) :
    (s.insertKitty a i k).balance = s.balance := rfl

@[simp] lemma removeKitty_nextKittyId (s : KState) (a : AccountId) (i : KittyIndex) :
    (s.removeKitty a i).nextKittyId = s.nextKittyId := rfl

@[simp] lemma removeKitty_kittyPrice (s : KState) (a : AccountId) (i : KittyIndex) :
    (s.removeKitty a i).kittyPrice = s.kittyPrice := rfl

@[simp] lemma removeKitty_balance (s : KState) (a : AccountId) (i : KittyIndex) :
    (s.removeKitty a i).balance = s.balance := rfl

@[simp] lemma removeListing_kitties (s : KState) (i : KittyIndex) :
    (s.removeListing i).kitties = s.kitties := rfl

@[simp] lemma removeListing_nextKittyId (s : KState) (i : KittyIndex) :
    (s.removeListing i).nextKittyId = s.nextKittyId := rfl

@[simp] lemma removeListing_balance (s : KState) (i : KittyIndex) :
    (s.removeListing i).balance = s.balance := rfl

@[simp] lemma writeListing_kitties (s : KState) (i : KittyIndex) (p : Balance) :
    (s.writeListing i p).kitties = s.kitties := rfl

@[simp] lemma writeListing_nextKittyId (s : KState) (i : KittyIndex) (p : Balance) :
    (s.writeListing i p).nextKittyId = s.nextKittyId := rfl

@[simp] lemma writeListing_balance (s : KState) (i : KittyIndex) (p : Balance) :
    (s.writeListing i p).balance = s.balance := rfl

@[simp] lemma mapBalance_kitties (s : KState) (a : AccountId) (f : Nat → Nat) :
    (s.mapBalance a f).kitties = s.kitties := rfl

@[simp] lemma mapBalance_nextKittyId (s : KState) (a : AccountId) (f : Nat → Nat) :
    (s.mapBalance a f).nextKittyId = s.nextKittyId := rfl

@[simp] lemma mapBalance_kittyPrice (s : KState) (a : AccountId) (f : Nat → Nat) :
    (s.mapBalance a f).kittyPrice = s.kittyPrice := rfl

lemma gender_eq_iff (k1 k2 : Kitty) :
    k1.gender = k2.gender ↔ k1.dna 0 % 2 = k2.dna 0 % 2 := by
  unfold Kitty.gender
  rcases Nat.mod_two_eq_zero_or_one (k1.dna 0) with h1 | h1 <;>
    rcases Nat.mod_two_eq_zero_or_one (k2.dna 0) with h2 | h2 <;>
    simp [h1, h2]

lemma create_ok_iff {kmax : Nat} {a : AccountId} {dna : Dna} {s s' : KState} :
    create kmax a dna s = Except.ok s' ↔
      s.nextKittyId < kmax ∧
        ({ s with nextKittyId := s.nextKittyId + 1 }).insertKitty a s.nextKittyId ⟨dna⟩ = s' := by
  unfold create get_next_kitty_id
  by_cases hlt : s.nextKittyId < kmax <;> simp [hlt]

lemma breed_ok_iff {kmax : Nat} {a : AccountId} {i j : KittyIndex} {sel : Dna} {s s' : KState} :
    breed kmax a i j sel s = Except.ok s' ↔
      ∃ k1 k2, s.kitties a i = some k1 ∧ s.kitties a j = some k2 ∧
        k1.gender ≠ k2.gender ∧ s.nextKittyId < kmax ∧
        ({ s with nextKittyId := s.nextKittyId + 1 }).insertKitty a s.nextKittyId
          ⟨fun idx => combine_dna (k1.dna idx) (k2.dna idx) (sel idx)⟩ = s' := by
  unfold breed get_next_kitty_id
  cases h1 : s.kitties a i with
  | none => simp
  | some k1 =>
    cases h2 : s.kitties a j with
    | none => simp
    | some k2 =>
      by_cases hg : k1.gender = k2.gender
      · simp [hg]
      · by_cases hlt : s.nextKittyId < kmax <;> simp [hg, hlt]

lemma transfer_ok_iff {a b : AccountId} {kid : KittyIndex} {s s' : KState} :
    transfer a b kid s = Except.ok s' ↔
      (a = b ∧ (s.kitties a kid).isSome = true ∧ s = s') ∨
      (a ≠ b ∧ ∃ k, s.kitties a kid = some k ∧
        (s.removeKitty a kid).insertKitty b kid k = s') := by
  unfold transfer
  by_cases hab : a = b
  · subst hab
    by_cases hsome : (s.kitties a kid).isSome <;> simp [hsome]
  · cases h : s.kitties a kid <;> simp [hab, h]

lemma set_price_ok_iff {a : AccountId} {kid : KittyIndex} {p old : Balance} {s s' : KState} :
    set_price a kid p s = Except.ok (old, s') ↔
      (s.kitties a kid).isSome = true ∧ s.kittyPrice kid = some old ∧
        s.writeListing kid p = s' := by
  unfold set_price
  by_cases hsome : (s.kitties a kid).isSome
  · cases h : s.kittyPrice kid with
    | none => simp [hsome, h]
    | some q => simp [hsome, h]
  · simp [hsome]

lemma exchange_ok_iff {a b : AccountId} {kid : KittyIndex} {s s' : KState} :
    exchange a b kid s = ExchangeOut.ok s' ↔
      a ≠ b ∧ ∃ price money, s.kittyPrice kid = some price ∧ s.balance b = some money ∧
        price < money ∧ (s.kitties a kid).isSome = true ∧
        ((((s.removeListing kid).mapBalance a fun x => wsub x price).mapBalance b
            fun x => wadd x price).removeKitty a kid) = s' := by
  unfold exchange
  by_cases hab : a = b
  · simp [hab]
  · cases hp : s.kittyPrice kid with
    | none => simp [hab]
    | some price =>
      cases hb : s.balance b with
      | none => simp [hab]
      | some money =>
        by_cases hlt : price < money
        · cases hk : s.kitties a kid with
          | none => simp [hab, hlt, hk]
          | some k => simp [hab, hlt, hk]
        · simp [hab, hlt]

lemma exchange_err_iff {a b : AccountId} {kid : KittyIndex} {e : KError} {s s' : KState} :
    exchange a b kid s = ExchangeOut.err e s' ↔
      (a = b ∧ KError.CannotExchangeWithYourself = e ∧ s = s') ∨
      (a ≠ b ∧ s.kittyPrice kid = none ∧ KError.NotForSale = e ∧ s = s') ∨
      (a ≠ b ∧ (∃ price, s.kittyPrice kid = some price) ∧ s.balance b = none ∧
        KError.NotForSale = e ∧ s.removeListing kid = s') ∨
      (a ≠ b ∧ (∃ price money, s.kittyPrice kid = some price ∧ s.balance b = some money ∧
        money ≤ price) ∧ KError.NotEnoughBalance = e ∧ s.removeListing kid = s') := by
  unfold exchange
  by_cases hab : a = b
  · simp [hab]
  · cases hp : s.kittyPrice kid with
    | none => simp [hab]
    | some price =>
      cases hb : s.balance b with
      | none => simp [hab]
      | some money =>
        by_cases hlt : price < money
        · cases hk : s.kitties a kid with
          | none => simp [hab, hlt, hk]
          | some k => simp [hab, hlt, hk]
        · simp [hab, hlt]
          intro _ _
          exact Nat.le_of_not_lt hlt

lemma goodState_insert_fresh {s : KState} (h : GoodState s) (owner : Nat) (k : Kitty) :
    GoodState (({ s with nextKittyId := s.nextKittyId + 1 }).insertKitty owner s.nextKittyId k) := by
  obtain ⟨hinv, hlt⟩ := h
  constructor
  · intro i a b ha hb
    simp only [KState.insertKitty] at ha hb
    by_cases hA : a = owner ∧ i = s.nextKittyId
    · obtain ⟨hA1, hA2⟩ := hA
      by_cases hB : b = owner ∧ i = s.nextKittyId
      · rw [hA1, hB.1]
      · rw [if_neg hB] at hb
        have hbelow := hlt b i hb
        omega
    · rw [if_neg hA] at ha
      by_cases hB : b = owner ∧ i = s.nextKittyId
      · obtain ⟨hB1, hB2⟩ := hB
        have hbelow := hlt a i ha
        omega
      · rw [if_neg hB] at hb
        exact hinv i a b ha hb
  · intro a i hsome
    simp only [KState.insertKitty] at hsome
    show i < s.nextKittyId + 1
    by_cases hA : a = owner ∧ i = s.nextKittyId
    · omega
    · rw [if_neg hA] at hsome
      have := hlt a i hsome
      omega

lemma goodState_congr {s s' : KState} (hk : s'.kitties = s.kitties)
    (hn : s.nextKittyId ≤ s'.nextKittyId) (h : GoodState s) : GoodState s' := by
  obtain ⟨hinv, hlt⟩ := h
  refine ⟨?_, ?_⟩
  · intro i a b ha hb
    rw [hk] at ha hb
    exact hinv i a b ha hb
  · intro a i hsome
    rw [hk] at hsome
    exact lt_of_lt_of_le (hlt a i hsome) hn

lemma goodState_remove {s : KState} (h : GoodState s) (owner id : Nat) :
    GoodState (s.removeKitty owner id) := by
  obtain ⟨hinv, hlt⟩ := h
  constructor
  · intro i a b ha hb
    simp only [KState.removeKitty] at ha hb
    by_cases hA : a = owner ∧ i = id
    · rw [if_pos hA] at ha
      simp at ha
    · by_cases hB : b = owner ∧ i = id
      · rw [if_pos hB] at hb
        simp at hb
      · rw [if_neg hA] at ha
        rw [if_neg hB] at hb
        exact hinv i a b ha hb
  · intro a i hsome
    simp only [KState.removeKitty] at hsome
    show i < s.nextKittyId
    by_cases hA : a = owner ∧ i = id
    · rw [if_pos hA] at hsome
      simp at hsome
    · rw [if_neg hA] at hsome
      exact hlt a i hsome

lemma goodState_move {s : KState} (h : GoodState s) {a b kid : Nat}
    {k : Kitty} (hk : s.kitties a kid = some k) :
    GoodState ((s.removeKitty a kid).insertKitty b kid k) := by
  obtain ⟨hinv, hlt⟩ := h
  have hak : (s.kitties a kid).isSome = true := by rw [hk]; rfl
  constructor
  · intro i x y hx hy
    simp only [KState.insertKitty, KState.removeKitty] at hx hy
    by_cases hX : x = b ∧ i = kid
    · rw [if_pos hX] at hx
      by_cases hY : y = b ∧ i = kid
      · rw [hX.1, hY.1]
      · rw [if_neg hY] at hy
        by_cases hY2 : y = a ∧ i = kid
        · rw [if_pos hY2] at hy
          simp at hy
        · rw [if_neg hY2] at hy
          exfalso
          have hyi : (s.kitties y kid).isSome = true := hX.2 ▸ hy
          exact hY2 ⟨hinv kid y a hyi hak, hX.2⟩
    · rw [if_neg hX] at hx
      by_cases hX2 : x = a ∧ i = kid
      · rw [if_pos hX2] at hx
        simp at hx
      · rw [if_neg hX2] at hx
        by_cases hY : y = b ∧ i = kid
        · rw [if_pos hY] at hy
          exfalso
          have hxi : (s.kitties x kid).isSome = true := hY.2 ▸ hx
          exact hX2 ⟨hinv kid x a hxi hak, hY.2⟩
        · rw [if_neg hY] at hy
          by_cases hY2 : y = a ∧ i = kid
          · rw [if_pos hY2] at hy
            simp at hy
          · rw [if_neg hY2] at hy
            exact hinv i x y hx hy
  · intro x i hsome
    simp only [KState.insertKitty, KState.removeKitty] at hsome
    show i < s.nextKittyId
    by_cases hX : x = b ∧ i = kid
    · rw [hX.2]
      exact hlt a kid hak
    · rw [if_neg hX] at hsome
      by_cases hX2 : x = a ∧ i = kid
      · rw [if_pos hX2] at hsome
        simp at hsome
      · rw [if_neg hX2] at hsome
        exact hlt x i hsome

lemma step_good {kmax : Nat} {s s' : KState} (hs : Step kmax s s') (h : GoodState s) :
    GoodState s' := by
  cases hs with
  | create a dna s s' hrun =>
    obtain ⟨hlt, rfl⟩ := create_ok_iff.mp hrun
    exact goodState_insert_fresh h a ⟨dna⟩
  | breed a i j sel s s' hrun =>
    obtain ⟨k1, k2, h1, h2, hg, hlt, rfl⟩ := breed_ok_iff.mp hrun
    exact goodState_insert_fresh h a _
  | transfer a b i s s' hrun =>
    rcases transfer_ok_iff.mp hrun with ⟨_, _, rfl⟩ | ⟨hab, k, hk, rfl⟩
    · exact h
    · exact goodState_move h hk
  | setPrice a i p old s s' hrun =>
    obtain ⟨_, _, rfl⟩ := set_price_ok_iff.mp hrun
    exact goodState_congr rfl (le_refl _) h
  | exchangeOk a b i s s' hrun =>
    obtain ⟨hab, price, money, hp, hb, hlt, hk, rfl⟩ := exchange_ok_iff.mp hrun
    exact goodState_congr rfl (le_refl _) (goodState_remove h a i)
  | exchangeErr a b i e s s' hrun =>
    rcases exchange_err_iff.mp hrun with
      ⟨_, _, rfl⟩ | ⟨_, _, _, rfl⟩ | ⟨_, _, _, _, rfl⟩ | ⟨_, _, _, rfl⟩
    · exact h
    · exact h
    · exact goodState_congr rfl (le_refl _) h
    · exact goodState_congr rfl (le_refl _) h

lemma reachable_good {kmax : Nat} {s : KState} (h : Reachable kmax s) : GoodState s := by
  induction h with
  | init =>
    constructor
    · intro i a b ha
      simp [initState] at ha
    · intro a i ha
      simp [initState] at ha
  | step hr hs ih => exact step_good hs ih

/-- C1: every reachable state has at most one owner entry per asset id,
and from a reachable state each dispatch step (success of create, breed,
transfer, set_price or exchange, or a storage-mutating error outcome of
exchange) again yields a state with at most one owner entry per id. -/
theorem claim_reachable_at_most_one_owner (kmax : Nat) (s : KState)
    (h : Reachable kmax s) :
    Inv s ∧ ∀ s', Step kmax s s' → Inv s' :=
  ⟨(reachable_good h).1, fun _ hs => (step_good hs (reachable_good h)).1⟩

theorem claim_reachable_at_most_one_owner_witness :
    Inv initState ∧ ∀ s', Step 1 initState s' → Inv s' :=
  claim_reachable_at_most_one_owner 1 initState Reachable.init

/-- C10: combine_dna picks, per bit position below 8, the parentA bit when
the selector bit is 0 and the parentB bit when it is 1; on the spec bytes
0b10101010, 0b01010101, 0b11110000 it yields 0b01011010. The function is a
plain Lean function of its three arguments, hence pure and deterministic. -/
theorem claim_combine_dna_bitwise (a b sel i : Nat) (hi : i < 8) :
    ((combine_dna a b sel).testBit i =
      if sel.testBit i then b.testBit i else a.testBit i) ∧
    combine_dna 170 85 240 = 90 := by
  constructor
  · have h255 : Nat.testBit 255 i = true := by
      interval_cases i <;> decide
    simp only [combine_dna, Nat.testBit_lor, Nat.testBit_land, Nat.testBit_xor, h255]
    cases hs : sel.testBit i <;> simp
  · decide

theorem claim_combine_dna_bitwise_witness :
    (2 : Nat) < 8 ∧
    ((combine_dna 170 85 240).testBit 2 =
      if (240 : Nat).testBit 2 then (85 : Nat).testBit 2 else (170 : Nat).testBit 2) ∧
    combine_dna 170 85 240 = 90 :=
  ⟨by decide, (claim_combine_dna_bitwise 170 85 240 2 (by decide)).1,
    (claim_combine_dna_bitwise 170 85 240 2 (by decide)).2⟩

/-- C5: exchange never checks that the initiator owns the listed asset:
in the concrete state where kitty 0 is listed at 5, the counterparty
(account 1) holds balance 10 exceeding the price, and account 0 owns
nothing, the call reaches the unwrap on an absent entry and panics rather
than returning a typed error. -/
theorem claim_exchange_panics_without_ownership :
    exListedRichNoOwner.kittyPrice 0 = some 5 ∧
    exListedRichNoOwner.balance 1 = some 10 ∧ (5 : Nat) < 10 ∧
    exListedRichNoOwner.kitties 0 0 = none ∧
    exchange 0 1 0 exListedRichNoOwner = ExchangeOut.panicked :=
  ⟨rfl, rfl, by decide, rfl, rfl⟩

/-- C7: get_next_kitty_id returns the current counter and increments it by
exactly one; when the counter sits at the maximum of the id type it fails
with KittiesIdOverflow and the counter is unchanged; each successful create
or breed increments the counter by exactly one. -/
theorem claim_next_id_allocation (kmax : Nat) (s sc sb s1 s2 : KState)
    (a owner : Nat) (dna sel : Dna) (i j : Nat) :
    (s.nextKittyId < kmax →
      get_next_kitty_id kmax s =
        (Except.ok s.nextKittyId, { s with nextKittyId := s.nextKittyId + 1 })) ∧
    (s.nextKittyId = kmax →
      get_next_kitty_id kmax s = (Except.error KError.KittiesIdOverflow, s)) ∧
    (create kmax a dna sc = Except.ok s1 → s1.nextKittyId = sc.nextKittyId + 1) ∧
    (breed kmax owner i j sel sb = Except.ok s2 → s2.nextKittyId = sb.nextKittyId + 1) := by
  refine ⟨?_, ?_, ?_, ?_⟩
  · intro hlt
    unfold get_next_kitty_id
    rw [if_pos hlt]
  · intro heq
    unfold get_next_kitty_id
    rw [if_neg (by rw [heq]; exact lt_irrefl kmax)]
  · intro hrun
    obtain ⟨hlt, hs⟩ := create_ok_iff.mp hrun
    rw [← hs]
    rfl
  · intro hrun
    obtain ⟨k1, k2, _, _, _, hlt, hs⟩ := breed_ok_iff.mp hrun
    rw [← hs]
    rfl

theorem claim_next_id_allocation_witness :
    (get_next_kitty_id 1 initState =
      (Except.ok initState.nextKittyId,
        { initState with nextKittyId := initState.nextKittyId + 1 })) ∧
    (get_next_kitty_id 0 initState = (Except.error KError.KittiesIdOverflow, initState)) ∧
    exCreated.nextKittyId = initState.nextKittyId + 1 ∧
    exBred.nextKittyId = exParents.nextKittyId + 1 :=
  ⟨(claim_next_id_allocation 1 initState initState initState initState initState
      0 0 exDna exSel 0 0).1 (by decide),
   (claim_next_id_allocation 0 initState initState initState initState initState
      0 0 exDna exSel 0 0).2.1 (by decide),
   (claim_next_id_allocation 1 initState initState initState exCreated exCreated
      0 0 exDna exSel 0 0).2.2.1 rfl,
   (claim_next_id_allocation 3 initState exParents exParents exBred exBred
      0 0 exSel exSel 0 1).2.2.2 rfl⟩

/-- C8: a self-transfer of an existing id succeeds and returns the state
unchanged, of a missing id fails InvalidKittyId; a cross-account transfer
of a missing id fails InvalidKittyId, and of an existing id atomically
moves the entry from the sender to the recipient, touching no other key of
the ownership table and none of the other three tables. -/
theorem claim_transfer_spec (s : KState) (a b kid : Nat) (k : Kitty) :
    (s.kitties a kid = some k → transfer a a kid s = Except.ok s) ∧
    (s.kitties a kid = none → transfer a a kid s = Except.error KError.InvalidKittyId) ∧
    (a ≠ b → s.kitties a kid = none →
      transfer a b kid s = Except.error KError.InvalidKittyId) ∧
    (a ≠ b → s.kitties a kid = some k →
      ∃ s', transfer a b kid s = Except.ok s' ∧
        s'.kitties a kid = none ∧ s'.kitties b kid = some k ∧
        (∀ x i : Nat, ¬(x = a ∧ i = kid) → ¬(x = b ∧ i = kid) →
          s'.kitties x i = s.kitties x i) ∧
        s'.nextKittyId = s.nextKittyId ∧ s'.kittyPrice = s.kittyPrice ∧
        s'.balance = s.balance) := by
  refine ⟨?_, ?_, ?_, ?_⟩
  · intro hk
    simp [transfer, hk]
  · intro hk
    simp [transfer, hk]
  · intro hab hk
    simp [transfer, hab, hk]
  · intro hab hk
    refine ⟨(s.removeKitty a kid).insertKitty b kid k, ?_, ?_, ?_, ?_, rfl, rfl, rfl⟩
    · simp [transfer, hab, hk]
    · simp [KState.insertKitty, KState.removeKitty, hab]
    · simp [KState.insertKitty]
    · intro x i hx1 hx2
      simp only [KState.insertKitty, KState.removeKitty]
      rw [if_neg hx2, if_neg hx1]

theorem claim_transfer_spec_witness :
    transfer 0 0 0 exFull = Except.ok exFull ∧
    transfer 0 0 0 initState = Except.error KError.InvalidKittyId ∧
    transfer 0 1 0 initState = Except.error KError.InvalidKittyId ∧
    (∃ s', transfer 0 1 0 exFull = Except.ok s' ∧
      s'.kitties 0 0 = none ∧ s'.kitties 1 0 = some ⟨exDna⟩ ∧
      (∀ x i : Nat, ¬(x = 0 ∧ i = 0) → ¬(x = 1 ∧ i = 0) →
        s'.kitties x i = exFull.kitties x i) ∧
      s'.nextKittyId = exFull.nextKittyId ∧ s'.kittyPrice = exFull.kittyPrice ∧
      s'.balance = exFull.balance) :=
  ⟨(claim_transfer_spec exFull 0 1 0 ⟨exDna⟩).1 rfl,
   (claim_transfer_spec initState 0 1 0 ⟨exDna⟩).2.1 rfl,
   (claim_transfer_spec initState 0 1 0 ⟨exDna⟩).2.2.1 (by decide) rfl,
   (claim_transfer_spec exFull 0 1 0 ⟨exDna⟩).2.2.2 (by decide) rfl⟩

/-- C6: set_price fails InvalidKittyId whenever the caller does not own the
asset; fails NotForSale when the caller owns it but no price is stored yet,
so an asset can never receive a first listing here; otherwise overwrites
the stored price with the new one, reports the previous value, and changes
nothing else. -/
theorem claim_set_price_spec (s : KState) (caller kid np old : Nat) :
    ((s.kitties caller kid).isSome = false →
      set_price caller kid np s = Except.error KError.InvalidKittyId) ∧
    ((s.kitties caller kid).isSome = true → s.kittyPrice kid = none →
      set_price caller kid np s = Except.error KError.NotForSale) ∧
    ((s.kitties caller kid).isSome = true → s.kittyPrice kid = some old →
      set_price caller kid np s = Except.ok (old, s.writeListing kid np) ∧
      (s.writeListing kid np).kittyPrice kid = some np ∧
      (∀ i : Nat, i ≠ kid → (s.writeListing kid np).kittyPrice i = s.kittyPrice i) ∧
      (s.writeListing kid np).kitties = s.kitties ∧
      (s.writeListing kid np).balance = s.balance ∧
      (s.writeListing kid np).nextKittyId = s.nextKittyId) := by
  refine ⟨?_, ?_, ?_⟩
  · intro hmine
    simp [set_price, hmine]
  · intro hmine hp
    simp [set_price, hmine, hp]
  · intro hmine hp
    refine ⟨by simp [set_price, hmine, hp], by simp [KState.writeListing], ?_, rfl, rfl, rfl⟩
    intro i hi
    simp [KState.writeListing, hi]

theorem claim_set_price_spec_witness :
    set_price 0 0 9 exListedNoBalance = Except.error KError.InvalidKittyId ∧
    set_price 0 0 9 exOwnedUnlisted = Except.error KError.NotForSale ∧
    (set_price 0 0 9 exFull = Except.ok (5, exFull.writeListing 0 9) ∧
      (exFull.writeListing 0 9).kittyPrice 0 = some 9 ∧
      (∀ i : Nat, i ≠ 0 → (exFull.writeListing 0 9).kittyPrice i = exFull.kittyPrice i) ∧
      (exFull.writeListing 0 9).kitties = exFull.kitties ∧
      (exFull.writeListing 0 9).balance = exFull.balance ∧
      (exFull.writeListing 0 9).nextKittyId = exFull.nextKittyId) :=
  ⟨(claim_set_price_spec exListedNoBalance 0 0 9 5).1 rfl,
   (claim_set_price_spec exOwnedUnlisted 0 0 9 5).2.1 rfl rfl,
   (claim_set_price_spec exFull 0 0 9 5).2.2 rfl rfl⟩

/-- C9: breed fails InvalidKittyId unless both parent ids exist under the
owner; fails SameGender when the parents have byte 0 of equal parity
(gender is the parity of byte 0, even Male); on success it stores, under
the owner at the freshly allocated id (the old counter value), a child
whose dna at every index is combine_dna of the parent bytes under the
selector byte. -/
theorem claim_breed_spec (kmax : Nat) (s : KState) (owner i j : Nat) (sel : Dna)
    (k1 k2 : Kitty) :
    (s.kitties owner i = none →
      breed kmax owner i j sel s = Except.error KError.InvalidKittyId) ∧
    (s.kitties owner i = some k1 → s.kitties owner j = none →
      breed kmax owner i j sel s = Except.error KError.InvalidKittyId) ∧
    (s.kitties owner i = some k1 → s.kitties owner j = some k2 →
      k1.dna 0 % 2 = k2.dna 0 % 2 →
      breed kmax owner i j sel s = Except.error KError.SameGender) ∧
    (s.kitties owner i = some k1 → s.kitties owner j = some k2 →
      k1.dna 0 % 2 ≠ k2.dna 0 % 2 → s.nextKittyId < kmax →
      ∃ s', breed kmax owner i j sel s = Except.ok s' ∧
        s'.kitties owner s.nextKittyId =
          some ⟨fun idx => combine_dna (k1.dna idx) (k2.dna idx) (sel idx)⟩ ∧
        s'.nextKittyId = s.nextKittyId + 1) := by
  refine ⟨?_, ?_, ?_, ?_⟩
  · intro h1
    simp [breed, h1]
  · intro h1 h2
    simp [breed, h1, h2]
  · intro h1 h2 hpar
    have hg : k1.gender = k2.gender := (gender_eq_iff k1 k2).mpr hpar
    simp [breed, h1, h2, hg]
  · intro h1 h2 hpar hlt
    have hg : ¬ k1.gender = k2.gender := fun hc => hpar ((gender_eq_iff k1 k2).mp hc)
    refine ⟨({ s with nextKittyId := s.nextKittyId + 1 }).insertKitty owner s.nextKittyId
      ⟨fun idx => combine_dna (k1.dna idx) (k2.dna idx) (sel idx)⟩, ?_, ?_, rfl⟩
    · simp [breed, h1, h2, hg, get_next_kitty_id, hlt]
    · simp [KState.insertKitty]

theorem claim_breed_spec_witness :
    breed 3 0 5 1 exSel exParents = Except.error KError.InvalidKittyId ∧
    breed 3 0 0 5 exSel exParents = Except.error KError.InvalidKittyId ∧
    breed 3 0 0 0 exSel exParents = Except.error KError.SameGender ∧
    (∃ s', breed 3 0 0 1 exSel exParents = Except.ok s' ∧
      s'.kitties 0 exParents.nextKittyId =
        some ⟨fun idx => combine_dna ((⟨fun _ => 2⟩ : Kitty).dna idx)
          ((⟨fun _ => 3⟩ : Kitty).dna idx) (exSel idx)⟩ ∧
      s'.nextKittyId = exParents.nextKittyId + 1) :=
  ⟨(claim_breed_spec 3 exParents 0 5 1 exSel ⟨fun _ => 2⟩ ⟨fun _ => 3⟩).1 rfl,
   (claim_breed_spec 3 exParents 0 0 5 exSel ⟨fun _ => 2⟩ ⟨fun _ => 3⟩).2.1 rfl rfl,
   (claim_breed_spec 3 exParents 0 0 0 exSel ⟨fun _ => 2⟩ ⟨fun _ => 2⟩).2.2.1 rfl rfl (by decide),
   (claim_breed_spec 3 exParents 0 0 1 exSel ⟨fun _ => 2⟩ ⟨fun _ => 3⟩).2.2.2 rfl rfl
     (by decide) (by decide)⟩

/-- C2: when the initiator differs from the counterparty and a listing for
the id is present, any error outcome of exchange (NotForSale because the
counterparty has no balance record, or NotEnoughBalance) leaves the asset
unlisted: the destructive read consumed the listing before the failure. -/
theorem claim_exchange_failure_consumes_listing (s : KState)
    (init cp kid p : Nat) (e : KError) (s' : KState)
    (hne : init ≠ cp) (hl : s.kittyPrice kid = some p)
    (hrun : exchange init cp kid s = ExchangeOut.err e s') :
    s'.kittyPrice kid = none ∧
      (e = KError.NotForSale ∨ e = KError.NotEnoughBalance) := by
  rcases exchange_err_iff.mp hrun with
    ⟨hab, _, _⟩ | ⟨_, hnone, _, _⟩ | ⟨_, _, _, he, hs⟩ | ⟨_, _, he, hs⟩
  · exact absurd hab hne
  · rw [hl] at hnone
    simp at hnone
  · subst hs
    exact ⟨by simp [KState.removeListing], Or.inl he.symm⟩
  · subst hs
    exact ⟨by simp [KState.removeListing], Or.inr he.symm⟩

theorem claim_exchange_failure_consumes_listing_witness :
    (exListedNoBalance.removeListing 0).kittyPrice 0 = none ∧
      (KError.NotForSale = KError.NotForSale ∨
        KError.NotForSale = KError.NotEnoughBalance) :=
  claim_exchange_failure_consumes_listing exListedNoBalance 0 1 0 5
    KError.NotForSale (exListedNoBalance.removeListing 0) (by decide) rfl rfl

/-- C3: on a successful exchange (listing present, counterparty balance
above the price, initiator owning the kitty), the price is subtracted
(wrapping, u128) from the initiator balance entry when one exists and the
entry stays absent otherwise, the price is added to the counterparty
balance entry, and the kitty is removed from the initiator without being
inserted under the counterparty or anyone else. -/
theorem claim_exchange_success_effects (s : KState)
    (init cp kid price money : Nat) (k : Kitty)
    (hne : init ≠ cp) (hl : s.kittyPrice kid = some price)
    (hb : s.balance cp = some money) (hlt : price < money)
    (hk : s.kitties init kid = some k) :
    ∃ s', exchange init cp kid s = ExchangeOut.ok s' ∧
      (∀ b0, s.balance init = some b0 → s'.balance init = some (wsub b0 price)) ∧
      (s.balance init = none → s'.balance init = none) ∧
      s'.balance cp = some (wadd money price) ∧
      s'.kitties init kid = none ∧
      (∀ a : Nat, a ≠ init → s'.kitties a kid = s.kitties a kid) := by
  refine ⟨((((s.removeListing kid).mapBalance init fun x => wsub x price).mapBalance cp
      fun x => wadd x price).removeKitty init kid), ?_, ?_, ?_, ?_, ?_, ?_⟩
  · exact exchange_ok_iff.mpr ⟨hne, price, money, hl, hb, hlt, by rw [hk]; rfl, rfl⟩
  · intro b0 hb0
    simp [KState.removeKitty, KState.mapBalance, hb0, hne]
  · intro hb0
    simp [KState.removeKitty, KState.mapBalance, hb0, hne]
  · simp [KState.removeKitty, KState.mapBalance, hb, hne, Ne.symm hne]
  · simp [KState.removeKitty]
  · intro a ha
    simp [KState.removeKitty, ha]

theorem claim_exchange_success_effects_witness :
    ∃ s', exchange 0 1 0 exFull = ExchangeOut.ok s' ∧
      (∀ b0, exFull.balance 0 = some b0 → s'.balance 0 = some (wsub b0 5)) ∧
      (exFull.balance 0 = none → s'.balance 0 = none) ∧
      s'.balance 1 = some (wadd 10 5) ∧
      s'.kitties 0 0 = none ∧
      (∀ a : Nat, a ≠ 0 → s'.kitties a 0 = exFull.kitties a 0) :=
  claim_exchange_success_effects exFull 0 1 0 5 10 ⟨exDna⟩
    (by decide) rfl rfl (by decide) rfl

/-- C4: with the initiator distinct from the counterparty and a listing
present, exchange is gated on the counterparty balance only: no balance
record gives NotForSale, a balance at most the price gives
NotEnoughBalance, and success forces a counterparty balance record
strictly above the price, whatever the initiator balance is. -/
theorem claim_exchange_balance_gate (s : KState) (init cp kid price money : Nat)
    (hne : init ≠ cp) (hl : s.kittyPrice kid = some price) :
    (s.balance cp = none → (exchange init cp kid s).errOf = some KError.NotForSale) ∧
    (s.balance cp = some money → money ≤ price →
      (exchange init cp kid s).errOf = some KError.NotEnoughBalance) ∧
    ((exchange init cp kid s).isOk = true →
      ∃ m, s.balance cp = some m ∧ price < m) := by
  refine ⟨?_, ?_, ?_⟩
  · intro hb
    simp [exchange, hne, hl, hb, ExchangeOut.errOf]
  · intro hb hle
    have hnlt : ¬ price < money := by omega
    simp [exchange, hne, hl, hb, hnlt, ExchangeOut.errOf]
  · intro hok
    cases hbv : s.balance cp with
    | none => simp [exchange, hne, hl, hbv, ExchangeOut.isOk] at hok
    | some m =>
      refine ⟨m, rfl, ?_⟩
      by_cases hlt : price < m
      · exact hlt
      · simp [exchange, hne, hl, hbv, hlt, ExchangeOut.isOk] at hok

theorem claim_exchange_balance_gate_witness :
    (exchange 0 1 0 exListedNoBalance).errOf = some KError.NotForSale ∧
    (exchange 0 1 0 exEqualBalance).errOf = some KError.NotEnoughBalance ∧
    (∃ m, exFull.balance 1 = some m ∧ 5 < m) :=
  ⟨(claim_exchange_balance_gate exListedNoBalance 0 1 0 5 0 (by decide) rfl).1 rfl,
   (claim_exchange_balance_gate exEqualBalance 0 1 0 5 5 (by decide) rfl).2.1 rfl
     (by decide),
   (claim_exchange_balance_gate exFull 0 1 0 5 0 (by decide) rfl).2.2 rfl⟩

end Kitties
